import Mathlib

/-!
Verification development for the Wan2GP bootstrap repository
(`app.py`, `patch_gradio_args.py`).

The repository is a pre-flight reconciliation pipeline: before importing the
downstream `wgp` application it patches on-disk dependency sources, injects
module stubs into the import cache, overrides live attributes, and binds a
plugin host.  This file gives a shallow embedding of those operations:

* texts are `List Char`; `resub` models Python's `re.sub` left-to-right
  non-overlapping scan for the specific (deterministic, backtracking-free)
  patterns the code uses, and `subst` models `str.replace`;
* the matchers `matchCommaArg`/`matchWsArg` embed the
  `,\s*NAME\s*=\s*[a-zA-Z0-9_.]+` / `\s+NAME\s*=\s*[a-zA-Z0-9_.]+` removal
  patterns of `patch_gradio_args.py`, and `matchBuffer` embeds the lazy
  `torch\.nn\.Buffer\((.*?)\)` → `\1` rewrite (DOTALL) of `patch_mmgp_offload`;
* the startup sequence of `app.py` is a step-by-step state machine over
  `BootState`, with exceptions as `Except PyExc`; steps whose bodies the
  source wraps in `try/except Exception` are total, the unguarded ones are
  fallible.

Whitespace (`\s`) is modelled by the ASCII whitespace class, which covers the
patched source files.
-/

set_option linter.unusedVariables false

namespace Wan

/-! ## Text transform core -/

/-- One scanning pass of a substitution.  `m s` returns `some (k, r)` when the
pattern matches a prefix of `s` of length `k ≥ 1` and is to be replaced by `r`.
`resubF` copies unmatched characters and replaces whole matches, continuing
after each match, exactly like Python's `re.sub` / `str.replace` scan.  The
fuel argument makes the recursion structural; `resub` supplies enough fuel. -/
def resubF (m : List Char → Option (Nat × List Char)) : Nat → List Char → List Char
  | _, [] => []
  | 0, s => s
  | fuel + 1, c :: cs =>
    match m (c :: cs) with
    | some (k, r) => r ++ resubF m fuel (cs.drop (k - 1))
    | none => c :: resubF m fuel cs

/-- Left-to-right, non-overlapping substitution over a whole text. -/
def resub (m : List Char → Option (Nat × List Char)) (s : List Char) : List Char :=
  resubF m s.length s

/-- Does `pat` occur as a contiguous substring?  Models Python's `pat in txt`. -/
def containsSub (pat : List Char) : List Char → Bool
  | [] => pat.isEmpty
  | c :: cs => pat.isPrefixOf (c :: cs) || containsSub pat cs

/-- Matcher for a literal occurrence of `old`, replaced by `new`
(the building block of Python's `str.replace`). -/
def litMatcher (old new : List Char) (s : List Char) : Option (Nat × List Char) :=
  if !old.isEmpty && old.isPrefixOf s then some (old.length, new) else none

/-- Python's `s.replace(old, new)` (for nonempty `old`). -/
def subst (old new : List Char) (s : List Char) : List Char :=
  resub (litMatcher old new) s

/-- ASCII whitespace, the `\s` class restricted to ASCII. -/
def isPySpace (c : Char) : Bool :=
  c = ' ' || c = '\t' || c = '\n' || c = '\r' || c = '\x0b' || c = '\x0c'

/-- The `[a-zA-Z0-9_.]` class of `patch_gradio_args.py`. -/
def isIdentChar (c : Char) : Bool :=
  c.isAlpha || c.isDigit || c = '_' || c = '.'

/-- Length of the maximal prefix satisfying `p` (a greedy `p*`). -/
def countWhile (p : Char → Bool) : List Char → Nat
  | [] => 0
  | c :: cs => if p c then countWhile p cs + 1 else 0

/-- Shared tail `NAME\s*=\s*[a-zA-Z0-9_.]+` of the two removal patterns:
returns the number of characters matched from `r1`, if any. -/
def matchArgTail (name : List Char) (r1 : List Char) : Option Nat :=
  if name.isPrefixOf r1 then
    let r2 := r1.drop name.length
    let w2 := countWhile isPySpace r2
    match r2.drop w2 with
    | '=' :: r4 =>
      let w3 := countWhile isPySpace r4
      let w4 := countWhile isIdentChar (r4.drop w3)
      if w4 = 0 then none else some (name.length + w2 + 1 + w3 + w4)
    | _ => none
  else none

/-- The pattern `,\s*NAME\s*=\s*[a-zA-Z0-9_.]+` (removed, i.e. replaced
by the empty text).  For these patterns greedy `\s*` needs no backtracking:
the following literal starts with a non-whitespace character. -/
def matchCommaArg (name : List Char) (s : List Char) : Option (Nat × List Char) :=
  match s with
  | ',' :: rest =>
    match matchArgTail name (rest.drop (countWhile isPySpace rest)) with
    | some n => some (1 + countWhile isPySpace rest + n, [])
    | none => none
  | _ => none

/-- The pattern `\s+NAME\s*=\s*[a-zA-Z0-9_.]+` (removed). -/
def matchWsArg (name : List Char) (s : List Char) : Option (Nat × List Char) :=
  if countWhile isPySpace s = 0 then none
  else
    match matchArgTail name (s.drop (countWhile isPySpace s)) with
    | some n => some (countWhile isPySpace s + n, [])
    | none => none

def nameReset : List Char := "show_reset_button".toList

def nameDownload : List Char := "show_download_button".toList

/-- The four `re.sub` passes of `patch_wgp_py` in source order. -/
def patchWgpContent (s : List Char) : List Char :=
  resub (matchWsArg nameDownload)
    (resub (matchCommaArg nameDownload)
      (resub (matchWsArg nameReset)
        (resub (matchCommaArg nameReset) s)))

/-- `patch_wgp_py` from `patch_gradio_args.py`: reads the file, applies the
four transforms, and writes the result back unconditionally.  The boolean
records whether a write-back is performed (always `true` in the source). -/
def patch_wgp_py (s : List Char) : List Char × Bool :=
  (patchWgpContent s, true)

/-- `"torch.nn.Buffer("`, the literal head of the wrapper pattern. -/
def bufferOpen : List Char := "torch.nn.Buffer(".toList

/-- `"torch.nn.Buffer"`, the containment probe of `patch_mmgp_offload`. -/
def bufferName : List Char := "torch.nn.Buffer".toList

/-- The lazy pattern `torch\.nn\.Buffer\((.*?)\)` with DOTALL, replaced by the
captured group: match the literal head, then everything up to the first `)`. -/
def matchBuffer (s : List Char) : Option (Nat × List Char) :=
  if bufferOpen.isPrefixOf s then
    match (s.drop bufferOpen.length).findIdx? (fun c => c = ')') with
    | some i => some (bufferOpen.length + i + 1, (s.drop bufferOpen.length).take i)
    | none => none
  else none

/-- Outcome reported by a text patch step (mirrors the three log branches). -/
inductive PatchOutcome where
  | patched
  | presentNoChange
  | targetMissing
deriving DecidableEq, Repr

/-- The text-level behaviour of `patch_mmgp_offload` on the contents of
`offload.py`: probe for `torch.nn.Buffer`, rewrite, write back only when the
rewrite changed the text. -/
def mmgpRun (text : List Char) : List Char × PatchOutcome :=
  if containsSub bufferName text then
    let nt := resub matchBuffer text
    if nt = text then (text, .presentNoChange) else (nt, .patched)
  else (text, .targetMissing)

/-- `"get_context('fork')"` (single quotes). -/
def forkOld1 : List Char := "get_context('fork')".toList

/-- `"get_context('spawn')"` (single quotes). -/
def forkNew1 : List Char := "get_context('spawn')".toList

/-- `get_context("fork")` (double quotes). -/
def forkOld2 : List Char := "get_context(\"fork\")".toList

/-- `get_context("spawn")` (double quotes). -/
def forkNew2 : List Char := "get_context(\"spawn\")".toList

def pickOld : List Char :=
  "worker.arg_queue.put(((args, kwargs), GradioPartialContext.get()))".toList

def pickNew : List Char :=
  "worker.arg_queue.put(((args, kwargs), None))".toList

/-- One `if old in txt: txt = txt.replace(old, new); changed = True` block of
`patch_spaces_zero_wrappers_on_disk`, acting on a (text, changed) pair. -/
def replaceStep (old new : List Char) (p : List Char × Bool) : List Char × Bool :=
  if containsSub old p.1 then (subst old new p.1, true) else p

/-- The text-level behaviour of `patch_spaces_zero_wrappers_on_disk` on the
wrappers file contents: three guarded literal replacements; the boolean is the
`changed` flag that decides the write-back. -/
def spacesApply (txt : List Char) : List Char × Bool :=
  replaceStep pickOld pickNew
    (replaceStep forkOld2 forkNew2
      (replaceStep forkOld1 forkNew1 (txt, false)))

example : patchWgpContent "x(a, show_reset_button=False)".toList = "x(a)".toList := by decide
example : patchWgpContent "hello".toList = "hello".toList := by decide
example :
    resub matchBuffer "self.x = torch.nn.Buffer(torch.zeros(3))".toList
      = "self.x = torch.zeros(3)".toList := by decide
example :
    (mmgpRun "torch.nn.Buffer(torch.nn.Buffer(x))".toList).1
      = "torch.nn.Buffer(x)".toList := by decide
example :
    (spacesApply "ctx = get_context('fork')".toList)
      = ("ctx = get_context('spawn')".toList, true) := by decide
example : spacesApply "nothing here".toList = ("nothing here".toList, false) := by decide

/-! ## Scanning lemmas -/

theorem resubF_nil (m : List Char → Option (Nat × List Char)) (fuel : Nat) :
    resubF m fuel [] = [] := by
  cases fuel <;> rfl

theorem resubF_zero (m : List Char → Option (Nat × List Char)) (s : List Char) :
    resubF m 0 s = s := by
  cases s <;> rfl

theorem resubF_cons_none {m : List Char → Option (Nat × List Char)} {c : Char}
    {cs : List Char} (fuel : Nat) (h : m (c :: cs) = none) :
    resubF m (fuel + 1) (c :: cs) = c :: resubF m fuel cs := by
  simp [resubF, h]

theorem resubF_cons_some {m : List Char → Option (Nat × List Char)} {c : Char}
    {cs : List Char} {k : Nat} {r : List Char} (fuel : Nat)
    (h : m (c :: cs) = some (k, r)) :
    resubF m (fuel + 1) (c :: cs) = r ++ resubF m fuel (cs.drop (k - 1)) := by
  simp [resubF, h]

/-- `SubSpec m s out`: `out` arises from `s` by a single left-to-right scan
which, at each position, either copies the current character because the
pattern does not match there, or replaces an entire nonempty match by its
replacement text and continues after the match.  This is the statement
"a pattern either matches and is fully replaced, or is left untouched":
no partial substitution of a match is possible. -/
inductive SubSpec (m : List Char → Option (Nat × List Char)) : List Char → List Char → Prop where
  | nil : SubSpec m [] []
  | keep {c : Char} {cs out : List Char} :
      m (c :: cs) = none → SubSpec m cs out → SubSpec m (c :: cs) (c :: out)
  | repl {s out : List Char} {k : Nat} {r : List Char} :
      m s = some (k, r) → 1 ≤ k → SubSpec m (s.drop k) out → SubSpec m s (r ++ out)

theorem drop_cons_of_one_le {c : Char} {cs : List Char} {k : Nat} (hk : 1 ≤ k) :
    (c :: cs).drop k = cs.drop (k - 1) := by
  cases k with
  | zero => omega
  | succ j => simp

theorem resubF_subSpec {m : List Char → Option (Nat × List Char)}
    (wf : ∀ s k r, m s = some (k, r) → 1 ≤ k) :
    ∀ fuel s, s.length ≤ fuel → SubSpec m s (resubF m fuel s) := by
  intro fuel
  induction fuel with
  | zero =>
    intro s hs
    have : s = [] := by cases s <;> simp_all
    subst this
    exact .nil
  | succ n ih =>
    intro s hs
    match s with
    | [] =>
      rw [resubF_nil]
      exact .nil
    | c :: cs =>
      cases h : m (c :: cs) with
      | none =>
        rw [resubF_cons_none n h]
        exact .keep h (ih cs (by simp at hs; omega))
      | some kr =>
        obtain ⟨k, r⟩ := kr
        rw [resubF_cons_some n h]
        have hk := wf _ _ _ h
        refine SubSpec.repl h hk ?_
        rw [drop_cons_of_one_le hk]
        refine ih _ ?_
        simp only [List.length_drop]
        simp at hs
        omega

theorem resub_subSpec {m : List Char → Option (Nat × List Char)}
    (wf : ∀ s k r, m s = some (k, r) → 1 ≤ k) (s : List Char) :
    SubSpec m s (resub m s) :=
  resubF_subSpec wf s.length s le_rfl

/-- Does the pattern match anywhere in the text? -/
def hasMatch (m : List Char → Option (Nat × List Char)) : List Char → Bool
  | [] => false
  | c :: cs => (m (c :: cs)).isSome || hasMatch m cs

theorem resubF_id_of_no_match {m : List Char → Option (Nat × List Char)} :
    ∀ fuel s, hasMatch m s = false → resubF m fuel s = s := by
  intro fuel
  induction fuel with
  | zero => intro s _; exact resubF_zero m s
  | succ n ih =>
    intro s hs
    match s with
    | [] => exact resubF_nil m _
    | c :: cs =>
      cases hm : m (c :: cs) with
      | some kr =>
        rw [hasMatch] at hs
        simp [hm] at hs
      | none =>
        rw [hasMatch] at hs
        simp only [hm, Option.isSome_none, Bool.false_or] at hs
        rw [resubF_cons_none n hm, ih cs hs]

theorem resub_id_of_no_match {m : List Char → Option (Nat × List Char)}
    {s : List Char} (h : hasMatch m s = false) : resub m s = s :=
  resubF_id_of_no_match s.length s h

/-! ## Weighted sums: change detection for literal replacement -/

/-- Sum of a character weight over a text; specializing the weight gives the
length and individual character counts. -/
def wsum (w : Char → Nat) (t : List Char) : Nat := (t.map w).sum

theorem wsum_append (w : Char → Nat) (a b : List Char) :
    wsum w (a ++ b) = wsum w a + wsum w b := by
  simp [wsum]

theorem wsum_cons (w : Char → Nat) (c : Char) (t : List Char) :
    wsum w (c :: t) = w c + wsum w t := by
  simp [wsum]

theorem eq_append_drop_of_isPrefixOf {old s : List Char} (h : old.isPrefixOf s = true) :
    s = old ++ s.drop old.length :=
  (List.prefix_iff_eq_append.mp (List.isPrefixOf_iff_prefix.mp h)).symm

theorem litMatcher_eq_some {old new s : List Char} {k : Nat} {r : List Char}
    (h : litMatcher old new s = some (k, r)) :
    k = old.length ∧ r = new ∧ old ≠ [] ∧ old.isPrefixOf s = true := by
  unfold litMatcher at h
  split at h
  · rename_i hcond
    simp only [Bool.and_eq_true, Bool.not_eq_true', List.isEmpty_eq_false] at hcond
    cases h
    exact ⟨rfl, rfl, hcond.1, hcond.2⟩
  · cases h

theorem litMatcher_eq_none {old new s : List Char} (hne : old ≠ [])
    (h : litMatcher old new s = none) : old.isPrefixOf s = false := by
  unfold litMatcher at h
  split at h
  · cases h
  · rename_i hcond
    simp only [Bool.and_eq_true, Bool.not_eq_true', List.isEmpty_eq_false,
      not_and] at hcond
    cases hp : old.isPrefixOf s
    · rfl
    · exact absurd hp (by simpa using hcond hne)

theorem wsum_resubF_subst_le (w : Char → Nat) (old new : List Char)
    (h : wsum w new ≤ wsum w old) :
    ∀ fuel s, s.length ≤ fuel →
      wsum w (resubF (litMatcher old new) fuel s) ≤ wsum w s := by
  intro fuel
  induction fuel with
  | zero =>
    intro s hs
    exact le_of_eq (by rw [resubF_zero])
  | succ n ih =>
    intro s hs
    match s with
    | [] => exact le_of_eq (by rw [resubF_nil])
    | c :: cs =>
      cases hm : litMatcher old new (c :: cs) with
      | none =>
        rw [resubF_cons_none n hm, wsum_cons, wsum_cons]
        exact Nat.add_le_add_left (ih cs (by simp at hs; omega)) _
      | some kr =>
        obtain ⟨k, r⟩ := kr
        obtain ⟨hk, hr, hne, hp⟩ := litMatcher_eq_some hm
        subst hk
        rw [resubF_cons_some n hm, wsum_append, hr]
        have hone : 1 ≤ old.length := by
          cases old with
          | nil => exact absurd rfl hne
          | cons _ _ => simp
        have hsplit : (c :: cs) = old ++ (c :: cs).drop old.length :=
          eq_append_drop_of_isPrefixOf hp
        have hrest : cs.drop (old.length - 1) = (c :: cs).drop old.length :=
          (drop_cons_of_one_le hone).symm
        calc wsum w new + wsum w (resubF (litMatcher old new) n (cs.drop (old.length - 1)))
            ≤ wsum w old + wsum w (cs.drop (old.length - 1)) := by
              refine Nat.add_le_add h (ih _ ?_)
              simp only [List.length_drop]
              simp at hs
              omega
          _ = wsum w (c :: cs) := by
              rw [hrest, ← wsum_append, ← hsplit]

theorem wsum_resubF_subst_eq (w : Char → Nat) (old new : List Char)
    (h : wsum w new = wsum w old) :
    ∀ fuel s, s.length ≤ fuel →
      wsum w (resubF (litMatcher old new) fuel s) = wsum w s := by
  intro fuel
  induction fuel with
  | zero =>
    intro s hs
    rw [resubF_zero]
  | succ n ih =>
    intro s hs
    match s with
    | [] => rw [resubF_nil]
    | c :: cs =>
      cases hm : litMatcher old new (c :: cs) with
      | none =>
        rw [resubF_cons_none n hm, wsum_cons, wsum_cons, ih cs (by simp at hs; omega)]
      | some kr =>
        obtain ⟨k, r⟩ := kr
        obtain ⟨hk, hr, hne, hp⟩ := litMatcher_eq_some hm
        subst hk
        rw [resubF_cons_some n hm, wsum_append, hr]
        have hone : 1 ≤ old.length := by
          cases old with
          | nil => exact absurd rfl hne
          | cons _ _ => simp
        have hsplit : (c :: cs) = old ++ (c :: cs).drop old.length :=
          eq_append_drop_of_isPrefixOf hp
        have hrest : cs.drop (old.length - 1) = (c :: cs).drop old.length :=
          (drop_cons_of_one_le hone).symm
        calc wsum w new + wsum w (resubF (litMatcher old new) n (cs.drop (old.length - 1)))
            = wsum w old + wsum w (cs.drop (old.length - 1)) := by
              rw [h, ih _ (by simp only [List.length_drop]; simp at hs; omega)]
          _ = wsum w (c :: cs) := by
              rw [hrest, ← wsum_append, ← hsplit]

theorem wsum_resubF_subst_lt (w : Char → Nat) (old new : List Char)
    (h : wsum w new < wsum w old) :
    ∀ fuel s, s.length ≤ fuel → containsSub old s = true →
      wsum w (resubF (litMatcher old new) fuel s) < wsum w s := by
  have hne : old ≠ [] := by
    intro he
    subst he
    simp [wsum] at h
  intro fuel
  induction fuel with
  | zero =>
    intro s hs hc
    have : s = [] := by cases s <;> simp_all
    subst this
    simp [containsSub, List.isEmpty_iff, hne] at hc
  | succ n ih =>
    intro s hs hc
    match s with
    | [] => simp [containsSub, List.isEmpty_iff, hne] at hc
    | c :: cs =>
      cases hm : litMatcher old new (c :: cs) with
      | none =>
        have hp := litMatcher_eq_none hne hm
        rw [resubF_cons_none n hm, wsum_cons, wsum_cons]
        have hc' : containsSub old cs = true := by
          simpa [containsSub, hp] using hc
        exact Nat.add_lt_add_left (ih cs (by simp at hs; omega) hc') _
      | some kr =>
        obtain ⟨k, r⟩ := kr
        obtain ⟨hk, hr, _, hp⟩ := litMatcher_eq_some hm
        subst hk
        rw [resubF_cons_some n hm, wsum_append, hr]
        have hone : 1 ≤ old.length := by
          cases old with
          | nil => exact absurd rfl hne
          | cons _ _ => simp
        have hsplit : (c :: cs) = old ++ (c :: cs).drop old.length :=
          eq_append_drop_of_isPrefixOf hp
        have hrest : cs.drop (old.length - 1) = (c :: cs).drop old.length :=
          (drop_cons_of_one_le hone).symm
        calc wsum w new + wsum w (resubF (litMatcher old new) n (cs.drop (old.length - 1)))
            < wsum w old + wsum w (cs.drop (old.length - 1)) := by
              refine Nat.add_lt_add_of_lt_of_le h ?_
              exact wsum_resubF_subst_le w old new (le_of_lt h) n _
                (by simp only [List.length_drop]; simp at hs; omega)
          _ = wsum w (c :: cs) := by
              rw [hrest, ← wsum_append, ← hsplit]

theorem wsum_subst_le (w : Char → Nat) (old new s : List Char)
    (h : wsum w new ≤ wsum w old) : wsum w (subst old new s) ≤ wsum w s :=
  wsum_resubF_subst_le w old new h s.length s le_rfl

theorem wsum_subst_eq (w : Char → Nat) (old new s : List Char)
    (h : wsum w new = wsum w old) : wsum w (subst old new s) = wsum w s :=
  wsum_resubF_subst_eq w old new h s.length s le_rfl

theorem wsum_subst_lt (w : Char → Nat) (old new s : List Char)
    (h : wsum w new < wsum w old) (hc : containsSub old s = true) :
    wsum w (subst old new s) < wsum w s :=
  wsum_resubF_subst_lt w old new h s.length s le_rfl hc

/-- Weight picking out the letter `f`: the fork patterns contain an `f`, their
spawn replacements do not, so replacing strictly decreases this weight. -/
def fWeight (c : Char) : Nat := if c = 'f' then 1 else 0

/-- Constant weight: `wsum oneWeight` is the length. -/
def oneWeight (c : Char) : Nat := 1

theorem replaceStep_wsum_le (w : Char → Nat) (old new : List Char)
    (h : wsum w new ≤ wsum w old) (p : List Char × Bool) :
    wsum w ((replaceStep old new p).1) ≤ wsum w p.1 := by
  unfold replaceStep
  split
  · exact wsum_subst_le w old new p.1 h
  · exact le_rfl

theorem replaceStep_wsum_eq (w : Char → Nat) (old new : List Char)
    (h : wsum w new = wsum w old) (p : List Char × Bool) :
    wsum w ((replaceStep old new p).1) = wsum w p.1 := by
  unfold replaceStep
  split
  · exact wsum_subst_eq w old new p.1 h
  · rfl

theorem replaceStep_flag_true (old new : List Char) (p : List Char × Bool)
    (h : p.2 = true) : (replaceStep old new p).2 = true := by
  unfold replaceStep
  split
  · rfl
  · exact h

/-- The `changed` flag of the spaces-wrappers disk patch is set exactly when
the produced text differs from the input text. -/
theorem spacesApply_writes_iff_changed (txt : List Char) :
    (spacesApply txt).2 = true ↔ (spacesApply txt).1 ≠ txt := by
  by_cases h1 : containsSub forkOld1 txt = true
  · have hstep1 : replaceStep forkOld1 forkNew1 (txt, false)
        = (subst forkOld1 forkNew1 txt, true) := by
      simp [replaceStep, h1]
    have hlt : wsum fWeight ((spacesApply txt).1) < wsum fWeight txt := by
      unfold spacesApply
      rw [hstep1]
      calc wsum fWeight ((replaceStep pickOld pickNew
              (replaceStep forkOld2 forkNew2 (subst forkOld1 forkNew1 txt, true))).1)
          = wsum fWeight ((replaceStep forkOld2 forkNew2
              (subst forkOld1 forkNew1 txt, true)).1) :=
            replaceStep_wsum_eq _ _ _ (by decide) _
        _ ≤ wsum fWeight (subst forkOld1 forkNew1 txt) :=
            replaceStep_wsum_le _ _ _ (by decide) _
        _ < wsum fWeight txt := wsum_subst_lt _ _ _ _ (by decide) h1
    have hflag : (spacesApply txt).2 = true := by
      unfold spacesApply
      rw [hstep1]
      exact replaceStep_flag_true _ _ _ (replaceStep_flag_true _ _ _ rfl)
    exact ⟨fun _ he => absurd hlt (by rw [he]; exact lt_irrefl _),
           fun _ => hflag⟩
  · have h1' : containsSub forkOld1 txt = false := by simpa using h1
    have hstep1 : replaceStep forkOld1 forkNew1 (txt, false) = (txt, false) := by
      simp [replaceStep, h1']
    by_cases h2 : containsSub forkOld2 txt = true
    · have hstep2 : replaceStep forkOld2 forkNew2 (txt, false)
          = (subst forkOld2 forkNew2 txt, true) := by
        simp [replaceStep, h2]
      have hlt : wsum fWeight ((spacesApply txt).1) < wsum fWeight txt := by
        unfold spacesApply
        rw [hstep1, hstep2]
        calc wsum fWeight ((replaceStep pickOld pickNew
                (subst forkOld2 forkNew2 txt, true)).1)
            = wsum fWeight (subst forkOld2 forkNew2 txt) :=
              replaceStep_wsum_eq _ _ _ (by decide) _
          _ < wsum fWeight txt := wsum_subst_lt _ _ _ _ (by decide) h2
      have hflag : (spacesApply txt).2 = true := by
        unfold spacesApply
        rw [hstep1, hstep2]
        exact replaceStep_flag_true _ _ _ rfl
      exact ⟨fun _ he => absurd hlt (by rw [he]; exact lt_irrefl _),
             fun _ => hflag⟩
    · have h2' : containsSub forkOld2 txt = false := by simpa using h2
      have hstep2 : replaceStep forkOld2 forkNew2 (txt, false) = (txt, false) := by
        simp [replaceStep, h2']
      by_cases h3 : containsSub pickOld txt = true
      · have hstep3 : replaceStep pickOld pickNew (txt, false)
            = (subst pickOld pickNew txt, true) := by
          simp [replaceStep, h3]
        have hlt : wsum oneWeight ((spacesApply txt).1) < wsum oneWeight txt := by
          unfold spacesApply
          rw [hstep1, hstep2, hstep3]
          exact wsum_subst_lt _ _ _ _ (by decide) h3
        have hflag : (spacesApply txt).2 = true := by
          unfold spacesApply
          rw [hstep1, hstep2, hstep3]
        exact ⟨fun _ he => absurd hlt (by rw [he]; exact lt_irrefl _),
               fun _ => hflag⟩
      · have h3' : containsSub pickOld txt = false := by simpa using h3
        have hall : spacesApply txt = (txt, false) := by
          unfold spacesApply
          rw [hstep1, hstep2]
          simp [replaceStep, h3']
        rw [hall]
        simp

/-- A run on a text containing none of the three literal patterns is the
identity and reports no change. -/
theorem spacesApply_clean (txt : List Char)
    (h1 : containsSub forkOld1 txt = false)
    (h2 : containsSub forkOld2 txt = false)
    (h3 : containsSub pickOld txt = false) :
    spacesApply txt = (txt, false) := by
  unfold spacesApply
  simp [replaceStep, h1, h2, h3]

/-- `patch_mmgp_offload` reports the applied outcome (and hence writes the
file) exactly when the rewrite changed the text. -/
theorem mmgpRun_patched_iff_changed (t : List Char) :
    (mmgpRun t).2 = PatchOutcome.patched ↔ (mmgpRun t).1 ≠ t := by
  unfold mmgpRun
  by_cases h1 : containsSub bufferName t = true
  · by_cases h2 : resub matchBuffer t = t
    · simp [h1, h2]
    · simp [h1, h2]
  · simp [h1]

/-! ## Matchers consume nonempty matches -/

theorem matchCommaArg_one_le (name : List Char) (s : List Char) (k : Nat)
    (r : List Char) (h : matchCommaArg name s = some (k, r)) : 1 ≤ k := by
  unfold matchCommaArg at h
  split at h
  · split at h
    · cases h
      omega
    · cases h
  · cases h

theorem matchWsArg_one_le (name : List Char) (s : List Char) (k : Nat)
    (r : List Char) (h : matchWsArg name s = some (k, r)) : 1 ≤ k := by
  unfold matchWsArg at h
  split at h
  · cases h
  · rename_i hw
    split at h
    · cases h
      omega
    · cases h

theorem matchBuffer_one_le (s : List Char) (k : Nat) (r : List Char)
    (h : matchBuffer s = some (k, r)) : 1 ≤ k := by
  unfold matchBuffer at h
  split at h
  · split at h
    · cases h
      omega
    · cases h
  · cases h

theorem litMatcher_one_le {old new : List Char} (s : List Char) (k : Nat)
    (r : List Char) (h : litMatcher old new s = some (k, r)) : 1 ≤ k := by
  obtain ⟨hk, -, hne, -⟩ := litMatcher_eq_some h
  subst hk
  cases old with
  | nil => exact absurd rfl hne
  | cons _ _ => simp

/-- Claim C7: every find/replace transform of the pipeline — the lazy
`torch.nn.Buffer(...)` wrapper removal, the two deprecated-argument removal
patterns (for any argument name), and the three literal replacements of the
wrappers patch — rewrites its input by full-match replacement only: each
output is obtained by either copying a character at an unmatched position or
replacing an entire nonempty match by its replacement text (`SubSpec`), so no
partially substituted remainder of a match is ever produced. -/
theorem transforms_full_match_replacement :
    (∀ s, SubSpec matchBuffer s (resub matchBuffer s)) ∧
    (∀ name s, SubSpec (matchCommaArg name) s (resub (matchCommaArg name) s)) ∧
    (∀ name s, SubSpec (matchWsArg name) s (resub (matchWsArg name) s)) ∧
    (∀ s, SubSpec (litMatcher forkOld1 forkNew1) s (subst forkOld1 forkNew1 s)) ∧
    (∀ s, SubSpec (litMatcher forkOld2 forkNew2) s (subst forkOld2 forkNew2 s)) ∧
    (∀ s, SubSpec (litMatcher pickOld pickNew) s (subst pickOld pickNew s)) :=
  ⟨fun s => resub_subSpec matchBuffer_one_le s,
   fun name s => resub_subSpec (matchCommaArg_one_le name) s,
   fun name s => resub_subSpec (matchWsArg_one_le name) s,
   fun s => resub_subSpec litMatcher_one_le s,
   fun s => resub_subSpec litMatcher_one_le s,
   fun s => resub_subSpec litMatcher_one_le s⟩

/-! ## Claim C3: write-back iff changed -/

/-- Claim C3 counterexample: the claim "the source text patcher performs a
write-back if and only if applying the transforms changed the content" is
false for `patch_wgp_py`: on the text `hello`, which contains no transform
pattern, the patcher still performs its unconditional write-back although the
content is unchanged. -/
theorem patch_wgp_writes_without_change :
    ¬(((patch_wgp_py "hello".toList).2 = true) ↔
        (patch_wgp_py "hello".toList).1 ≠ "hello".toList) := by
  decide

/-- Claim C3 (amended): the two on-disk patchers in `app.py` write back iff
the content changed (`spacesApply` via its `changed` flag, `patch_mmgp_offload`
via its text comparison); `patch_wgp_py` however always performs a write-back,
although when no removal pattern occurs in the text the bytes written are
identical to the original. -/
theorem writeback_iff_changed_amended :
    (∀ txt, (spacesApply txt).2 = true ↔ (spacesApply txt).1 ≠ txt) ∧
    (∀ t, (mmgpRun t).2 = PatchOutcome.patched ↔ (mmgpRun t).1 ≠ t) ∧
    (∀ t, (patch_wgp_py t).2 = true) ∧
    (∀ t, hasMatch (matchCommaArg nameReset) t = false →
      hasMatch (matchWsArg nameReset) t = false →
      hasMatch (matchCommaArg nameDownload) t = false →
      hasMatch (matchWsArg nameDownload) t = false →
      (patch_wgp_py t).1 = t) := by
  refine ⟨spacesApply_writes_iff_changed, mmgpRun_patched_iff_changed,
    fun t => rfl, fun t h1 h2 h3 h4 => ?_⟩
  show patchWgpContent t = t
  unfold patchWgpContent
  rw [resub_id_of_no_match h1, resub_id_of_no_match h2,
    resub_id_of_no_match h3, resub_id_of_no_match h4]

/-- Witness for the amended C3 at the concrete pattern-free text `hello`. -/
theorem writeback_iff_changed_amended_witness :
    (patch_wgp_py "hello".toList).1 = "hello".toList :=
  writeback_iff_changed_amended.2.2.2 "hello".toList
    (by decide) (by decide) (by decide) (by decide)

/-! ## Claim C4: idempotence of the on-disk patch operations -/

/-- Claim C4 counterexample: the `torch.nn.Buffer` removal of
`patch_mmgp_offload` is not idempotent.  On the nested wrapper text
`torch.nn.Buffer(torch.nn.Buffer(x))` the first application produces
`torch.nn.Buffer(x)` and the second application changes the text again
(to `x`) and reports the applied outcome, not an already-applied one. -/
theorem mmgp_patch_not_idempotent :
    ((mmgpRun ((mmgpRun "torch.nn.Buffer(torch.nn.Buffer(x))".toList).1)).1
        ≠ (mmgpRun "torch.nn.Buffer(torch.nn.Buffer(x))".toList).1) ∧
    (mmgpRun ((mmgpRun "torch.nn.Buffer(torch.nn.Buffer(x))".toList).1)).2
        = PatchOutcome.patched := by
  decide

/-- Claim C4 (amended): a second application of an on-disk patch operation is
the identity and reports the no-change outcome whenever the text it runs on no
longer contains a transform pattern (which the counterexample shows can fail
after a first application for the Buffer rewrite on nested wrappers): the
spaces patch returns `(t, false)` on pattern-free text, `patch_mmgp_offload`
reports `targetMissing` / `presentNoChange` without writing, and
`patch_wgp_py` leaves fixed-point texts unchanged, though it still reports its
unconditional success outcome. -/
theorem patch_second_run_noop_when_clean :
    (∀ txt, containsSub forkOld1 txt = false → containsSub forkOld2 txt = false →
      containsSub pickOld txt = false → spacesApply txt = (txt, false)) ∧
    (∀ t, containsSub bufferName t = false →
      mmgpRun t = (t, PatchOutcome.targetMissing)) ∧
    (∀ t, containsSub bufferName t = true → resub matchBuffer t = t →
      mmgpRun t = (t, PatchOutcome.presentNoChange)) ∧
    (∀ t, patchWgpContent t = t → patch_wgp_py t = (t, true)) := by
  refine ⟨spacesApply_clean, fun t h => ?_, fun t h1 h2 => ?_, fun t h => ?_⟩
  · simp [mmgpRun, h]
  · simp [mmgpRun, h1, h2]
  · simp [patch_wgp_py, h]

/-- Witness for the amended C4 at concrete pattern-free texts. -/
theorem patch_second_run_noop_witness :
    spacesApply "x".toList = ("x".toList, false) ∧
    mmgpRun "y".toList = ("y".toList, PatchOutcome.targetMissing) :=
  ⟨patch_second_run_noop_when_clean.1 "x".toList (by decide) (by decide) (by decide),
   patch_second_run_noop_when_clean.2.1 "y".toList (by decide)⟩

/-! ## Runtime slider clamp (`patch_gradio_slider_clamp`)

The wrapped `clamped(self, x)` receives the slider's declared bounds via
`getattr(self, "minimum"/"maximum", None)`; a Gradio slider's bounds are
numeric when present, so they are modelled as `Option ℚ`.  The incoming value
`x` is an arbitrary Python object: `none` (Python `None`), a number, or some
non-numeric object whose comparison with a number raises `TypeError`. -/

/-- A Python value as seen by the clamp wrapper. -/
inductive PyVal where
  | none
  | num (q : ℚ)
  | obj (tag : String)
deriving DecidableEq, Repr

/-- The first `if` of `clamped`: `if mn is not None and x is not None and
x < mn: x = mn`.  An `error` result is a `TypeError` raised by the comparison
and carries the (unchanged) current value of `x`. -/
def clampLow (mn : Option ℚ) (x : PyVal) : Except PyVal PyVal :=
  match mn, x with
  | some a, .num q => if q < a then .ok (.num a) else .ok (.num q)
  | some _, .obj t => .error (.obj t)
  | some _, .none => .ok .none
  | none, v => .ok v

/-- The second `if` of `clamped`: `if mx is not None and x is not None and
x > mx: x = mx`. -/
def clampHigh (mx : Option ℚ) (x : PyVal) : Except PyVal PyVal :=
  match mx, x with
  | some b, .num q => if b < q then .ok (.num b) else .ok (.num q)
  | some _, .obj t => .error (.obj t)
  | some _, .none => .ok .none
  | none, v => .ok v

/-- The `try` block of `clamped`: both guarded clamps in sequence; an error
carries the value `x` holds at the raise point. -/
def clampBody (mn mx : Option ℚ) (x : PyVal) : Except PyVal PyVal :=
  match clampLow mn x with
  | .error v => .error v
  | .ok x1 => clampHigh mx x1

/-- The value `clamped` passes to the original `Slider.preprocess`: the result
of the `try` block, or — because `except Exception: pass` swallows the raise —
the current value of `x` when the body raised. -/
def clampedArg (mn mx : Option ℚ) (x : PyVal) : PyVal :=
  match clampBody mn mx x with
  | .ok v => v
  | .error v => v

example : clampedArg (some 1) (some 50) (.num 0) = .num 1 := by decide
example : clampedArg (some 1) (some 50) (.num 999) = .num 50 := by decide
example : clampedArg (some 1) (some 50) (.num 10) = .num 10 := by decide
example : clampedArg (some 1) (some 50) .none = .none := by decide
example : clampedArg (some 1) (some 50) (.obj "s") = .obj "s" := by decide

/-- Claim C6: for declared bounds `[minimum, maximum]` with
`minimum ≤ maximum`, the value the wrapper delegates to the original
preprocess is the numeric input clamped into the interval; in particular with
bounds `[1, 50]` input `0` is passed as `1`, input `999` as `50`, and input
`10` unchanged. -/
theorem slider_clamp_delegates_clamped :
    (∀ (a b q : ℚ), a ≤ b →
      clampedArg (some a) (some b) (.num q) = .num (max a (min q b))) ∧
    clampedArg (some 1) (some 50) (.num 0) = .num 1 ∧
    clampedArg (some 1) (some 50) (.num 999) = .num 50 ∧
    clampedArg (some 1) (some 50) (.num 10) = .num 10 := by
  refine ⟨fun a b q hab => ?_, by decide, by decide, by decide⟩
  unfold clampedArg clampBody clampLow clampHigh
  by_cases h1 : q < a
  · simp only [h1, if_true]
    have : ¬ b < a := not_lt.mpr hab
    simp only [this, if_false]
    have hq : min q b = q := min_eq_left (le_trans (le_of_lt h1) hab)
    rw [hq, max_eq_left (le_of_lt h1)]
  · simp only [h1, if_false]
    by_cases h2 : b < q
    · simp only [h2, if_true]
      rw [min_eq_right (le_of_lt h2), max_eq_right hab]
    · simp only [h2, if_false]
      rw [min_eq_left (not_lt.mp h2), max_eq_right (not_lt.mp h1)]

/-- Witness for C6 at the concrete bounds `[1, 50]` and input `0`. -/
theorem slider_clamp_delegates_clamped_witness :
    clampedArg (some 1) (some 50) (.num 0) = .num (max 1 (min 0 50)) :=
  slider_clamp_delegates_clamped.1 1 50 0 (by norm_num)

/-- Claim C10: for input `None` the wrapper performs no clamping whatever the
declared bounds and delegates `None` unchanged; and whenever the clamp body
raises internally (a `TypeError` from comparing a non-numeric input with a
numeric bound), the exception is swallowed and the original preprocess is
still called with the unmodified input value. -/
theorem slider_clamp_none_and_swallow :
    (∀ mn mx, clampedArg mn mx .none = .none) ∧
    (∀ mn mx x v, clampBody mn mx x = .error v → v = x ∧ clampedArg mn mx x = x) := by
  constructor
  · intro mn mx
    cases mn <;> cases mx <;> rfl
  · intro mn mx x v h
    have hx : v = x := by
      cases x with
      | none =>
        exfalso
        cases mn <;> cases mx <;> simp [clampBody, clampLow, clampHigh] at h
      | num q =>
        exfalso
        cases mn with
        | none =>
          cases mx with
          | none => simp [clampBody, clampLow, clampHigh] at h
          | some b =>
            by_cases hb : b < q <;>
              simp [clampBody, clampLow, clampHigh, hb] at h
        | some a =>
          by_cases ha : q < a
          · cases mx with
            | none => simp [clampBody, clampLow, clampHigh, ha] at h
            | some b =>
              by_cases hb : b < a <;>
                simp [clampBody, clampLow, clampHigh, ha, hb] at h
          · cases mx with
            | none => simp [clampBody, clampLow, clampHigh, ha] at h
            | some b =>
              by_cases hb : b < q <;>
                simp [clampBody, clampLow, clampHigh, ha, hb] at h
      | obj t =>
        cases mn with
        | some a =>
          simp only [clampBody, clampLow, Except.error.injEq] at h
          exact h.symm
        | none =>
          cases mx with
          | some b =>
            simp only [clampBody, clampLow, clampHigh, Except.error.injEq] at h
            exact h.symm
          | none => simp [clampBody, clampLow, clampHigh] at h
    refine ⟨hx, ?_⟩
    unfold clampedArg
    rw [h, hx]

/-- Witness for C10: a non-numeric input with a numeric lower bound raises in
the comparison, and the original preprocess still receives it unchanged. -/
theorem slider_clamp_none_and_swallow_witness :
    clampedArg (some 1) (some 50) (.obj "s") = .obj "s" :=
  (slider_clamp_none_and_swallow.2 (some 1) (some 50) (.obj "s") (.obj "s") rfl).2

/-! ## Plugin bootstrap resolver (`ensure_wgp_plugin_app`) -/

/-- The two plugin host variants `ensure_wgp_plugin_app` can bind. -/
inductive PluginApp where
  | realApp
  | dummyApp
deriving DecidableEq, Repr

/-- `ensure_wgp_plugin_app`: keep an existing binding; otherwise try to
construct `WAN2GPApplication` (success modelled by `constructionOk`) and on
any failure bind the `_DummyPluginApp` fallback. -/
def ensure_wgp_plugin_app (constructionOk : Bool) (app : Option PluginApp) :
    Option PluginApp :=
  match app with
  | some a => some a
  | none => if constructionOk then some .realApp else some .dummyApp

/-- `_DummyPluginApp.initialize_plugins`: prints and returns `None`; the
application state `w` is untouched, a log line is appended. -/
def dummyInitPlugins {α : Type} (w : α) (log : List String) : α × List String :=
  (w, log ++ ["[Plugin] Dummy initialize_plugins (no-op)."])

/-- `_DummyPluginApp.run_component_insertion`. -/
def dummyRunComponentInsertion {α : Type} (w : α) (log : List String) :
    α × List String :=
  (w, log ++ ["[Plugin] Dummy run_component_insertion (no-op)."])

/-- `_DummyPluginApp.setup_ui_tabs`. -/
def dummySetupUiTabs {α : Type} (w : α) (log : List String) : α × List String :=
  (w, log ++ ["[Plugin] Dummy setup_ui_tabs (no-op)."])

/-- `_DummyPluginApp.get_tab_order`: returns `[]`. -/
def dummyGetTabOrder : List String := []

/-- Claim C5: running the resolver on a module whose plugin binding is absent
leaves the binding non-empty in every outcome; when constructing the real
plugin host fails, the bound value is the null variant, each of whose
capability methods leaves the application state unchanged (a logged no-op)
and whose `get_tab_order()` is the empty sequence. -/
theorem ensure_plugin_app_binds_nonempty :
    (∀ (ok : Bool) (app : Option PluginApp), app = none →
      (ensure_wgp_plugin_app ok app).isSome = true) ∧
    (∀ (app : Option PluginApp), app = none →
      ensure_wgp_plugin_app false app = some .dummyApp) ∧
    (∀ (α : Type) (w : α) (log : List String),
      (dummyInitPlugins w log).1 = w ∧
      (dummyRunComponentInsertion w log).1 = w ∧
      (dummySetupUiTabs w log).1 = w) ∧
    dummyGetTabOrder = [] := by
  refine ⟨fun ok app h => ?_, fun app h => ?_, fun α w log => ⟨rfl, rfl, rfl⟩, rfl⟩
  · subst h
    cases ok <;> rfl
  · subst h
    rfl

/-- Witness for C5: an absent binding with failing construction yields the
null variant, whose tab order is empty. -/
theorem ensure_plugin_app_binds_nonempty_witness :
    (ensure_wgp_plugin_app false none).isSome = true ∧
    ensure_wgp_plugin_app false none = some PluginApp.dummyApp ∧
    (dummyInitPlugins (37 : Nat) []).1 = 37 :=
  ⟨ensure_plugin_app_binds_nonempty.1 false none rfl,
   ensure_plugin_app_binds_nonempty.2.1 none rfl,
   (ensure_plugin_app_binds_nonempty.2.2.1 Nat 37 []).1⟩

/-! ## Module stub injector (`preload_mmgp_fp8_bridge_stubs`) -/

/-- A Python function object bound on the bridge module: one of the four
stubs defined inside `preload_mmgp_fp8_bridge_stubs`, or anything else. -/
inductive PyFun where
  | stubConvert
  | stubDetect
  | stubLoad
  | stubEnable
  | externalFun (tag : String)
deriving DecidableEq, Repr

/-- The `mmgp.fp8_quanto_bridge` module record: the four bridge symbols the
injector targets (absent on a fresh `types.ModuleType`), plus any other
attributes the module may carry. -/
structure Bridge where
  convert_scaled_fp8_to_quanto : Option PyFun
  detect_safetensors_format : Option PyFun
  load_quantized_model : Option PyFun
  enable_fp8_marlin_fallback : Option PyFun
  others : List (String × PyFun)
deriving DecidableEq, Repr

/-- A freshly created `types.ModuleType`: no bridge symbols bound. -/
def freshBridge : Bridge :=
  { convert_scaled_fp8_to_quanto := none
    detect_safetensors_format := none
    load_quantized_model := none
    enable_fp8_marlin_fallback := none
    others := [] }

/-- `preload_mmgp_fp8_bridge_stubs`: reuse the cached module if present
(else insert a fresh one), then assign the four stub functions to the four
bridge symbols.  The assignments in the source are unconditional. -/
def preload_mmgp_fp8_bridge_stubs (cache : Option Bridge) : Bridge :=
  { cache.getD freshBridge with
    convert_scaled_fp8_to_quanto := some .stubConvert
    detect_safetensors_format := some .stubDetect
    load_quantized_model := some .stubLoad
    enable_fp8_marlin_fallback := some .stubEnable }

/-- A cached bridge module that already carries a real implementation of
`convert_scaled_fp8_to_quanto`. -/
def bridgeWithReal : Bridge :=
  { freshBridge with
    convert_scaled_fp8_to_quanto := some (.externalFun "real_convert") }

/-- Claim C2 counterexample: the stub injector does not leave an existing
binding unchanged.  With `mmgp.fp8_quanto_bridge` already cached and
`convert_scaled_fp8_to_quanto` already bound to a real implementation, the
injector rebinds it to the stub. -/
theorem preload_overwrites_existing_symbol :
    (preload_mmgp_fp8_bridge_stubs (some bridgeWithReal)).convert_scaled_fp8_to_quanto
      ≠ bridgeWithReal.convert_scaled_fp8_to_quanto := by
  decide

/-- Claim C2 (amended): the injector reuses the module object already present
in the import cache and leaves every attribute other than the four bridge
symbols unchanged, but it unconditionally rebinds all four bridge symbols to
the stubs, overwriting any bindings those four names already had. -/
theorem preload_sets_stubs_preserves_others (cache : Option Bridge) :
    (preload_mmgp_fp8_bridge_stubs cache).others = (cache.getD freshBridge).others ∧
    (preload_mmgp_fp8_bridge_stubs cache).convert_scaled_fp8_to_quanto = some .stubConvert ∧
    (preload_mmgp_fp8_bridge_stubs cache).detect_safetensors_format = some .stubDetect ∧
    (preload_mmgp_fp8_bridge_stubs cache).load_quantized_model = some .stubLoad ∧
    (preload_mmgp_fp8_bridge_stubs cache).enable_fp8_marlin_fallback = some .stubEnable :=
  ⟨rfl, rfl, rfl, rfl, rfl⟩

/-! ## The startup sequence of `app.py`

The module body of `app.py` is a fixed sequence of steps.  Exceptions are
modelled with `Except PyExc`; a step whose body the source wraps in
`try/except Exception` is a total function on `BootState`, while the
unguarded steps (`patch_multiprocessing_cloudpickle()`, `import spaces`,
`import wgp`) are fallible.  Module importability is environment data. -/

/-- A Python exception, as far as the bootstrap can observe one. -/
inductive PyExc where
  | importError (modName : String)
  | runtimeError
deriving DecidableEq, Repr

/-- The fixed environment of a run: which modules import successfully and
whether `WAN2GPApplication()` can be constructed. -/
structure BootEnv where
  canImport : List String
  pluginOk : Bool
deriving DecidableEq, Repr

/-- The mutable process state the bootstrap touches. -/
structure BootState where
  startMethod : Option String
  picklerIsCloudpickle : Bool
  wrappersText : List Char
  wrappersWritten : Bool
  runtimePatched : Bool
  bridge : Option Bridge
  mmgpText : Option (List Char)
  mmgpWritten : Bool
  sliderPatched : Bool
  argv : List String
  wgpApp : Option PluginApp
  wgpImportedWithArgv : Option (List String)
deriving DecidableEq, Repr

/-- The state at interpreter start, with the launch arguments in `argv`.
The wrappers file content and the optional `offload.py` content are the
on-disk state of the installed dependencies. -/
def initState (argv0 : List String) (wrappers : List Char)
    (offload : Option (List Char)) : BootState :=
  { startMethod := none
    picklerIsCloudpickle := false
    wrappersText := wrappers
    wrappersWritten := false
    runtimePatched := false
    bridge := none
    mmgpText := offload
    mmgpWritten := false
    sliderPatched := false
    argv := argv0
    wgpApp := none
    wgpImportedWithArgv := none }

/-- An `import m` statement: raises `ImportError` when `m` is unavailable. -/
def importOK (env : BootEnv) (m : String) : Except PyExc Unit :=
  if m ∈ env.canImport then .ok () else .error (.importError m)

/-- CPython's `multiprocessing.set_start_method(method, force)`: raises
`RuntimeError` when the context is already fixed and `force` is not set. -/
def mp_set_start_method (st : BootState) (method : String) (force : Bool) :
    Except PyExc BootState :=
  if st.startMethod.isSome && !force then .error .runtimeError
  else .ok { st with startMethod := some method }

/-- The first statement block of `app.py`:
`try: mp.set_start_method("spawn", force=True) except RuntimeError: pass`. -/
def step_force_spawn (st : BootState) : Except PyExc BootState :=
  match mp_set_start_method st "spawn" true with
  | .ok st' => .ok st'
  | .error .runtimeError => .ok st
  | .error e => .error e

/-- `patch_multiprocessing_cloudpickle()`: three unguarded imports, then the
pickler swap; the two inner `try` blocks (cached `_ForkingPickler`
references) swallow their own failures and are invisible here.  The call at
module level has no surrounding handler. -/
def step_pickler (env : BootEnv) (st : BootState) : Except PyExc BootState :=
  match importOK env "pickle" with
  | .error e => .error e
  | .ok _ =>
    match importOK env "cloudpickle" with
    | .error e => .error e
    | .ok _ =>
      match importOK env "multiprocessing.reduction" with
      | .error e => .error e
      | .ok _ => .ok { st with picklerIsCloudpickle := true }

/-- The unguarded module-level `import spaces`. -/
def step_import_spaces (env : BootEnv) (st : BootState) : Except PyExc BootState :=
  match importOK env "spaces" with
  | .error e => .error e
  | .ok _ => .ok st

/-- Body of `patch_spaces_zero_wrappers_on_disk` (inside its `try`). -/
def spaces_disk_body (env : BootEnv) (st : BootState) : Except PyExc BootState :=
  match importOK env "spaces.zero.wrappers" with
  | .error e => .error e
  | .ok _ =>
    if (spacesApply st.wrappersText).2 then
      .ok { st with wrappersText := (spacesApply st.wrappersText).1,
                    wrappersWritten := true }
    else .ok st

/-- `patch_spaces_zero_wrappers_on_disk()`: the body under
`except Exception as e: print(...)`. -/
def patch_spaces_zero_wrappers_on_disk (env : BootEnv) (st : BootState) : BootState :=
  match spaces_disk_body env st with
  | .ok st' => st'
  | .error _ => st

/-- Body of `patch_spaces_zero_wrappers_runtime` (inside its `try`). -/
def spaces_runtime_body (env : BootEnv) (st : BootState) : Except PyExc BootState :=
  match importOK env "spaces.zero.wrappers" with
  | .error e => .error e
  | .ok _ => .ok { st with runtimePatched := true }

/-- `patch_spaces_zero_wrappers_runtime()`: body under a catch-all. -/
def patch_spaces_zero_wrappers_runtime (env : BootEnv) (st : BootState) : BootState :=
  match spaces_runtime_body env st with
  | .ok st' => st'
  | .error _ => st

/-- `preload_mmgp_fp8_bridge_stubs()` at the process level: reads and writes
only `sys.modules`; it performs no import and cannot raise. -/
def step_preload_stubs (st : BootState) : BootState :=
  { st with bridge := some (preload_mmgp_fp8_bridge_stubs st.bridge) }

/-- Body of `patch_mmgp_offload` (inside its `try`): import `mmgp`, skip when
`offload.py` is missing, else run the text patch and write back on change. -/
def mmgp_body (env : BootEnv) (st : BootState) : Except PyExc BootState :=
  match importOK env "mmgp" with
  | .error e => .error e
  | .ok _ =>
    match st.mmgpText with
    | none => .ok st
    | some t =>
      if (mmgpRun t).2 = PatchOutcome.patched then
        .ok { st with mmgpText := some (mmgpRun t).1, mmgpWritten := true }
      else .ok st

/-- `patch_mmgp_offload()`: body under a catch-all. -/
def patch_mmgp_offload (env : BootEnv) (st : BootState) : BootState :=
  match mmgp_body env st with
  | .ok st' => st'
  | .error _ => st

/-- Body of `patch_gradio_slider_clamp` (inside its `try`). -/
def slider_body (env : BootEnv) (st : BootState) : Except PyExc BootState :=
  match importOK env "gradio" with
  | .error e => .error e
  | .ok _ => .ok { st with sliderPatched := true }

/-- `patch_gradio_slider_clamp()`: body under a catch-all. -/
def patch_gradio_slider_clamp (env : BootEnv) (st : BootState) : BootState :=
  match slider_body env st with
  | .ok st' => st'
  | .error _ => st

/-- `sys.argv = ["wgp.py", "--i2v"]` — unconditional replacement. -/
def step_set_argv (st : BootState) : BootState :=
  { st with argv := ["wgp.py", "--i2v"] }

/-- The unguarded `import wgp`; on success `wgp` observes the current
`sys.argv`. -/
def step_import_wgp (env : BootEnv) (st : BootState) : Except PyExc BootState :=
  match importOK env "wgp" with
  | .error e => .error e
  | .ok _ => .ok { st with wgpImportedWithArgv := some st.argv }

/-- `ensure_wgp_plugin_app(wgp)`: total (its fallible part is caught and
falls back to the dummy binding). -/
def step_ensure_plugin (env : BootEnv) (st : BootState) : BootState :=
  { st with wgpApp := ensure_wgp_plugin_app env.pluginOk st.wgpApp }

/-- The module body of `app.py` in source order, up to the plugin binding
(the `os.environ.setdefault` call touches no modelled state). -/
def bootstrap (env : BootEnv) (st0 : BootState) : Except PyExc BootState :=
  match step_force_spawn st0 with
  | .error e => .error e
  | .ok st1 =>
    match step_pickler env st1 with
    | .error e => .error e
    | .ok st2 =>
      match step_import_spaces env st2 with
      | .error e => .error e
      | .ok st3 =>
        match step_import_wgp env
            (step_set_argv
              (patch_gradio_slider_clamp env
                (patch_mmgp_offload env
                  (step_preload_stubs
                    (patch_spaces_zero_wrappers_runtime env
                      (patch_spaces_zero_wrappers_on_disk env st3)))))) with
        | .error e => .error e
        | .ok st10 => .ok (step_ensure_plugin env st10)

/-- An environment in which everything needed is importable. -/
def envAll : BootEnv :=
  { canImport := ["pickle", "cloudpickle", "multiprocessing.reduction", "spaces",
      "spaces.zero.wrappers", "mmgp", "gradio", "wgp"]
    pluginOk := true }

/-- An environment in which `cloudpickle` is not installed. -/
def envNoCloudpickle : BootEnv :=
  { canImport := ["pickle", "multiprocessing.reduction", "spaces",
      "spaces.zero.wrappers", "mmgp", "gradio", "wgp"]
    pluginOk := true }

example :
    (bootstrap envAll (initState ["app.py"] [] none)).isOk = true := by decide

theorem importOK_error {env : BootEnv} {m : String} {e : PyExc}
    (h : importOK env m = .error e) : e = .importError m := by
  unfold importOK at h
  split at h
  · cases h
  · cases h
    rfl

theorem step_force_spawn_ok (st : BootState) :
    step_force_spawn st = .ok { st with startMethod := some "spawn" } := by
  simp [step_force_spawn, mp_set_start_method]

theorem step_pickler_error {env : BootEnv} {st : BootState} {e : PyExc}
    (h : step_pickler env st = .error e) :
    e = .importError "pickle" ∨ e = .importError "cloudpickle" ∨
      e = .importError "multiprocessing.reduction" := by
  unfold step_pickler at h
  cases h1 : importOK env "pickle" with
  | error e1 =>
    simp only [h1] at h
    cases h
    exact Or.inl (importOK_error h1)
  | ok u =>
    simp only [h1] at h
    cases h2 : importOK env "cloudpickle" with
    | error e2 =>
      simp only [h2] at h
      cases h
      exact Or.inr (Or.inl (importOK_error h2))
    | ok u2 =>
      simp only [h2] at h
      cases h3 : importOK env "multiprocessing.reduction" with
      | error e3 =>
        simp only [h3] at h
        cases h
        exact Or.inr (Or.inr (importOK_error h3))
      | ok u3 =>
        simp only [h3] at h
        cases h

theorem step_import_spaces_error {env : BootEnv} {st : BootState} {e : PyExc}
    (h : step_import_spaces env st = .error e) : e = .importError "spaces" := by
  unfold step_import_spaces at h
  cases h1 : importOK env "spaces" with
  | error e1 =>
    simp only [h1] at h
    cases h
    exact importOK_error h1
  | ok u =>
    simp only [h1] at h
    cases h

theorem step_import_wgp_error {env : BootEnv} {st : BootState} {e : PyExc}
    (h : step_import_wgp env st = .error e) : e = .importError "wgp" := by
  unfold step_import_wgp at h
  cases h1 : importOK env "wgp" with
  | error e1 =>
    simp only [h1] at h
    cases h
    exact importOK_error h1
  | ok u =>
    simp only [h1] at h
    cases h

/-! ## Claim C1: step isolation in the startup sequence -/

/-- Claim C1 counterexample: exceptions raised inside the pickler patch do
propagate to the top-level orchestration sequence.
`patch_multiprocessing_cloudpickle()` is called at module level with no
surrounding handler, and its body imports `cloudpickle` unguarded: in an
environment without `cloudpickle` the whole bootstrap aborts with that
`ImportError` instead of converting it into a logged skip. -/
theorem bootstrap_propagates_cloudpickle_failure :
    bootstrap envNoCloudpickle (initState ["app.py"] [] none)
      = .error (.importError "cloudpickle") := by
  rfl

/-- Claim C1 (amended): the on-disk wrappers patch, the runtime wrappers
patch, the mmgp offload patch, the slider clamp patch and the plugin binding
are exception-isolated (they are total steps), and the fp8 bridge stubbing
performs no fallible operation; but the pickler patch and the module imports
(`spaces`, `wgp`) are unguarded, so the only exceptions that can reach the
top-level sequence are import failures from those points. -/
theorem bootstrap_errors_only_from_unguarded_imports
    (env : BootEnv) (st0 : BootState) (e : PyExc)
    (h : bootstrap env st0 = .error e) :
    e = .importError "pickle" ∨ e = .importError "cloudpickle" ∨
      e = .importError "multiprocessing.reduction" ∨ e = .importError "spaces" ∨
      e = .importError "wgp" := by
  unfold bootstrap at h
  simp only [step_force_spawn_ok] at h
  cases hp : step_pickler env { st0 with startMethod := some "spawn" } with
  | error e1 =>
    simp only [hp] at h
    cases h
    rcases step_pickler_error hp with h1 | h1 | h1
    · exact Or.inl h1
    · exact Or.inr (Or.inl h1)
    · exact Or.inr (Or.inr (Or.inl h1))
  | ok st2 =>
    simp only [hp] at h
    cases hs : step_import_spaces env st2 with
    | error e2 =>
      simp only [hs] at h
      cases h
      exact Or.inr (Or.inr (Or.inr (Or.inl (step_import_spaces_error hs))))
    | ok st3 =>
      simp only [hs] at h
      cases hw : step_import_wgp env
          (step_set_argv
            (patch_gradio_slider_clamp env
              (patch_mmgp_offload env
                (step_preload_stubs
                  (patch_spaces_zero_wrappers_runtime env
                    (patch_spaces_zero_wrappers_on_disk env st3)))))) with
      | error e3 =>
        simp only [hw] at h
        cases h
        exact Or.inr (Or.inr (Or.inr (Or.inr (step_import_wgp_error hw))))
      | ok st10 =>
        simp only [hw] at h
        cases h

/-- Witness for the amended C1 at the environment without `cloudpickle`. -/
theorem bootstrap_errors_witness :
    PyExc.importError "cloudpickle" = .importError "pickle" ∨
      PyExc.importError "cloudpickle" = .importError "cloudpickle" ∨
      PyExc.importError "cloudpickle" = .importError "multiprocessing.reduction" ∨
      PyExc.importError "cloudpickle" = .importError "spaces" ∨
      PyExc.importError "cloudpickle" = .importError "wgp" :=
  bootstrap_errors_only_from_unguarded_imports envNoCloudpickle
    (initState ["app.py"] [] none) (.importError "cloudpickle") (by rfl)

/-! ## Claim C8: the execution context configurator -/

/-- Claim C8: the `try: mp.set_start_method("spawn", force=True)
except RuntimeError: pass` block never raises out of the bootstrap: for every
process state it yields a successor state (with the spawn model set), and in
particular when the model is already fixed by the host — the condition under
which the unforced call would raise `RuntimeError` — the step still succeeds
and execution continues. -/
theorem set_start_method_tolerates_already_set :
    (∀ st : BootState,
      step_force_spawn st = .ok { st with startMethod := some "spawn" }) ∧
    (∀ st : BootState, st.startMethod.isSome = true →
      mp_set_start_method st "spawn" false = .error .runtimeError) := by
  constructor
  · exact step_force_spawn_ok
  · intro st h
    simp [mp_set_start_method, h]

/-- A state in which the host has already fixed the start method. -/
def stAlreadyFixed : BootState :=
  { initState ["app.py"] [] none with startMethod := some "fork" }

/-- Witness for C8 at a state whose start method is already fixed. -/
theorem set_start_method_tolerates_already_set_witness :
    step_force_spawn stAlreadyFixed
      = .ok { stAlreadyFixed with startMethod := some "spawn" } ∧
    mp_set_start_method stAlreadyFixed "spawn" false = .error .runtimeError :=
  ⟨set_start_method_tolerates_already_set.1 stAlreadyFixed,
   set_start_method_tolerates_already_set.2 stAlreadyFixed rfl⟩

/-! ## Claim C9: the forced argument vector -/

/-- Claim C9: whenever the bootstrap completes, the argument vector that the
importing of `wgp` observed is exactly `["wgp.py", "--i2v"]`, for every
environment and every initial process state — in particular for every set of
launch arguments, which are discarded by the unconditional assignment just
before the import. -/
theorem wgp_sees_forced_argv (env : BootEnv) (st0 st' : BootState)
    (h : bootstrap env st0 = .ok st') :
    st'.wgpImportedWithArgv = some ["wgp.py", "--i2v"] := by
  unfold bootstrap at h
  simp only [step_force_spawn_ok] at h
  cases hp : step_pickler env { st0 with startMethod := some "spawn" } with
  | error e1 =>
    simp only [hp] at h
    cases h
  | ok st2 =>
    simp only [hp] at h
    cases hs : step_import_spaces env st2 with
    | error e2 =>
      simp only [hs] at h
      cases h
    | ok st3 =>
      simp only [hs] at h
      cases hw : step_import_wgp env
          (step_set_argv
            (patch_gradio_slider_clamp env
              (patch_mmgp_offload env
                (step_preload_stubs
                  (patch_spaces_zero_wrappers_runtime env
                    (patch_spaces_zero_wrappers_on_disk env st3)))))) with
      | error e3 =>
        simp only [hw] at h
        cases h
      | ok st10 =>
        simp only [hw] at h
        cases h
        unfold step_import_wgp at hw
        cases hi : importOK env "wgp" with
        | error e4 =>
          simp only [hi] at hw
          cases hw
        | ok u =>
          simp only [hi] at hw
          cases hw
          rfl

/-- The final state of a full run launched with unrelated arguments. -/
def bootFinalAll : BootState :=
  match bootstrap envAll (initState ["launch.py", "--oldargs"] [] none) with
  | .ok st => st
  | .error _ => initState [] [] none

/-- Witness for C9: a complete run started with unrelated launch arguments;
the `wgp` import observed only the forced ones. -/
theorem wgp_sees_forced_argv_witness :
    bootstrap envAll (initState ["launch.py", "--oldargs"] [] none)
        = .ok bootFinalAll ∧
    bootFinalAll.wgpImportedWithArgv = some ["wgp.py", "--i2v"] := by
  have h : bootstrap envAll (initState ["launch.py", "--oldargs"] [] none)
      = .ok bootFinalAll := by rfl
  exact ⟨h, wgp_sees_forced_argv envAll _ _ h⟩

end Wan
